import Mathlib

/-!
Verification of the appointment-scheduling backend (two API variants).

The "full" variant (`server.js`) stores rows of a `citas` table with a
`estado` status column and performs logical cancellation; the "simplified"
variant (the second server file) stores rows of a `citas_gratuitas` table
with three reminder-flag booleans and performs physical deletion.

Dates and times are modelled as abstract numeric codes (`Nat`): the SQL
layer compares them only for equality (`fecha = $1 AND hora = $2`) and
order (`fecha >= CURRENT_DATE`, `ORDER BY fecha, hora`), both of which are
preserved by any order-embedding of calendar dates into `Nat`.  Request
bodies carry `Option` fields; JavaScript falsiness of a string field
(`!nombre`) holds exactly for an absent field or the empty string.
-/

namespace Citas

/-- JavaScript falsiness of an optional string request field:
`!x` is true when the field is absent or the empty string. -/
def falsy : Option String → Bool
  | none => true
  | some s => s = ""

/-- A row of the `citas` table (full variant). -/
structure Cita where
  id : Nat
  nombre : String
  apellido : String
  email : String
  telefono : String
  fecha : Nat
  hora : Nat
  motivo : String
  notas : Option String
  estado : String
  fecha_actualizacion : Nat
  deriving DecidableEq, Repr

/-- Body of a `POST /api/citas` request (full variant): every field may be
absent.  `fecha` and `hora` are date/time codes; an absent or empty
date/time is modelled as `none`. -/
structure CitaRequest where
  nombre : Option String
  apellido : Option String
  email : Option String
  telefono : Option String
  fecha : Option Nat
  hora : Option Nat
  motivo : Option String
  notas : Option String
  deriving DecidableEq, Repr

/-- The validation of `POST /api/citas`:
`if (!nombre || !apellido || !email || !telefono || !fecha || !hora || !motivo)`. -/
def missingRequired (r : CitaRequest) : Bool :=
  falsy r.nombre || falsy r.apellido || falsy r.email || falsy r.telefono ||
  r.fecha.isNone || r.hora.isNone || falsy r.motivo

/-- The conflict query of `POST /api/citas`:
`SELECT * FROM citas WHERE fecha = $1 AND hora = $2 AND estado != 'cancelada'`
followed by `rows.length > 0`. -/
def hasConflict (db : List Cita) (f h : Nat) : Bool :=
  db.any (fun c => c.fecha = f && c.hora = h && c.estado ≠ "cancelada")

/-- Outcome of `POST /api/citas` (full variant): HTTP 400, 409 or 201. -/
inductive CreateResp where
  | badRequest
  | conflict
  | created (c : Cita)
  deriving DecidableEq, Repr

/-- Handler of `POST /api/citas` (full variant): validate required fields,
check the slot for a non-cancelled occupant, insert with
`estado = 'confirmada'` and `notas || null`.  `newId` is the id the store
generates for the inserted row and `now` the insertion timestamp. -/
def createCita (db : List Cita) (r : CitaRequest) (newId now : Nat) :
    CreateResp × List Cita :=
  if missingRequired r then (.badRequest, db)
  else
    let f := r.fecha.getD 0
    let h := r.hora.getD 0
    if hasConflict db f h then (.conflict, db)
    else
      let c : Cita :=
        { id := newId
          nombre := r.nombre.getD ""
          apellido := r.apellido.getD ""
          email := r.email.getD ""
          telefono := r.telefono.getD ""
          fecha := f
          hora := h
          motivo := r.motivo.getD ""
          notas := if falsy r.notas then none else r.notas
          estado := "confirmada"
          fecha_actualizacion := now }
      (.created c, db ++ [c])

/-- Body of a `PUT /api/citas/:id` request: the handler writes every field
into the row unconditionally (full field replacement, including `estado`). -/
structure CitaUpdate where
  nombre : String
  apellido : String
  email : String
  telefono : String
  fecha : Nat
  hora : Nat
  motivo : String
  notas : Option String
  estado : String
  deriving DecidableEq, Repr

/-- Outcome of `PUT` or `DELETE /api/citas/:id`: HTTP 404 or 200. -/
inductive RowResp where
  | notFound
  | ok (c : Cita)
  deriving DecidableEq, Repr

/-- Applying the `SET` clause of `PUT /api/citas/:id` to one row:
every editable column is overwritten and
`fecha_actualizacion = CURRENT_TIMESTAMP`; `id` is untouched. -/
def applyUpdate (c : Cita) (u : CitaUpdate) (now : Nat) : Cita :=
  { c with
    nombre := u.nombre
    apellido := u.apellido
    email := u.email
    telefono := u.telefono
    fecha := u.fecha
    hora := u.hora
    motivo := u.motivo
    notas := u.notas
    estado := u.estado
    fecha_actualizacion := now }

/-- Handler of `PUT /api/citas/:id` (full variant):
`UPDATE citas SET ... , fecha_actualizacion = CURRENT_TIMESTAMP WHERE id = $10
RETURNING *`; 404 when no row matched. -/
def updateCita (db : List Cita) (i : Nat) (u : CitaUpdate) (now : Nat) :
    RowResp × List Cita :=
  match db.find? (fun c => c.id = i) with
  | none => (.notFound, db)
  | some c =>
      (.ok (applyUpdate c u now),
       db.map (fun x => if x.id = i then applyUpdate x u now else x))

/-- Applying the `SET` clause of the soft delete to one row. -/
def applyCancel (c : Cita) (now : Nat) : Cita :=
  { c with
    estado := "cancelada"
    fecha_actualizacion := now }

/-- Handler of `DELETE /api/citas/:id` (full variant, soft delete):
`UPDATE citas SET estado = 'cancelada', fecha_actualizacion = CURRENT_TIMESTAMP
WHERE id = $1 RETURNING *`; 404 when no row matched. -/
def cancelCita (db : List Cita) (i : Nat) (now : Nat) :
    RowResp × List Cita :=
  match db.find? (fun c => c.id = i) with
  | none => (.notFound, db)
  | some c =>
      (.ok (applyCancel c now),
       db.map (fun x => if x.id = i then applyCancel x now else x))

/-- Ordering used by `ORDER BY hora`. -/
def horaLe (a b : Cita) : Prop := a.hora ≤ b.hora

instance : DecidableRel horaLe := fun a b => Nat.decLe a.hora b.hora

instance : IsTotal Cita horaLe := ⟨fun a b => Nat.le_total a.hora b.hora⟩

instance : IsTrans Cita horaLe := ⟨fun _ _ _ => Nat.le_trans⟩

/-- Ordering used by `ORDER BY fecha, hora`. -/
def fechaHoraLe (a b : Cita) : Prop :=
  a.fecha < b.fecha ∨ (a.fecha = b.fecha ∧ a.hora ≤ b.hora)

instance : DecidableRel fechaHoraLe := fun a b => by
  unfold fechaHoraLe; infer_instance

instance : IsTotal Cita fechaHoraLe := by
  constructor
  intro a b
  rcases Nat.lt_trichotomy a.fecha b.fecha with h | h | h
  · exact Or.inl (Or.inl h)
  · rcases Nat.le_total a.hora b.hora with h2 | h2
    · exact Or.inl (Or.inr ⟨h, h2⟩)
    · exact Or.inr (Or.inr ⟨h.symm, h2⟩)
  · exact Or.inr (Or.inl h)

instance : IsTrans Cita fechaHoraLe := by
  constructor
  intro a b c hab hbc
  rcases hab with h1 | ⟨h1, h1'⟩
  · rcases hbc with h2 | ⟨h2, _⟩
    · exact Or.inl (Nat.lt_trans h1 h2)
    · exact Or.inl (h2 ▸ h1)
  · rcases hbc with h2 | ⟨h2, h2'⟩
    · exact Or.inl (h1 ▸ h2)
    · exact Or.inr ⟨h1.trans h2, Nat.le_trans h1' h2'⟩

/-- Handler of `GET /api/citas/fecha/:fecha`:
`SELECT * FROM citas WHERE fecha = $1 ORDER BY hora` — no status filter. -/
def getByDate (db : List Cita) (f : Nat) : List Cita :=
  List.insertionSort horaLe (db.filter (fun c => c.fecha = f))

/-- Handler of `GET /api/citas/pendientes` (as written at its definition
site): `SELECT * FROM citas WHERE fecha >= CURRENT_DATE AND
estado = 'confirmada' ORDER BY fecha, hora`. -/
def getPendientes (db : List Cita) (today : Nat) : List Cita :=
  List.insertionSort fechaHoraLe
    (db.filter (fun c => today ≤ c.fecha && c.estado = "confirmada"))

/-- A segment of an Express route pattern: a literal or a `:name` parameter. -/
inductive Seg where
  | lit (s : String)
  | par (name : String)
  deriving DecidableEq, Repr

/-- Whether one pattern segment matches one path segment: a literal matches
only itself, a parameter matches any segment. -/
def segMatches : Seg → String → Bool
  | .lit s, x => s = x
  | .par _, _ => true

/-- Whether a route pattern matches a path (same length, segmentwise). -/
def routeMatches : List Seg → List String → Bool
  | [], [] => true
  | s :: ps, x :: xs => segMatches s x && routeMatches ps xs
  | _, _ => false

/-- Express dispatch: the first registered route whose pattern matches the
path handles the request. -/
def firstMatch : List (String × List Seg) → List String → Option String
  | [], _ => none
  | (n, p) :: rs, path =>
      if routeMatches p path then some n else firstMatch rs path

/-- The GET routes of the full variant, in registration order:
`/api/citas` (line 38), `/api/citas/:id` (line 51),
`/api/citas/fecha/:fecha` (line 156), `/api/citas/pendientes` (line 171),
`/health` (line 187), `/` (line 191). -/
def serverGetRoutes : List (String × List Seg) :=
  [("getAllCitas", [.lit "api", .lit "citas"]),
   ("getCitaById", [.lit "api", .lit "citas", .par "id"]),
   ("getCitasByFecha", [.lit "api", .lit "citas", .lit "fecha", .par "fecha"]),
   ("getCitasPendientes", [.lit "api", .lit "citas", .lit "pendientes"]),
   ("health", [.lit "health"]),
   ("root", [])]

/-- One API operation of the full variant, for stating lifecycle
properties across operation sequences. -/
inductive FullOp where
  | create (r : CitaRequest) (newId now : Nat)
  | update (i : Nat) (u : CitaUpdate) (now : Nat)
  | cancel (i : Nat) (now : Nat)
  deriving Repr

/-- The store state after one API operation. -/
def applyOp (db : List Cita) : FullOp → List Cita
  | .create r newId now => (createCita db r newId now).2
  | .update i u now => (updateCita db i u now).2
  | .cancel i now => (cancelCita db i now).2

/-- Every row of `db` that is cancelled is still cancelled at its position
in `db2` (operations either rewrite rows in place or append new rows, so
positions identify records). -/
def preservesCancelled (db db2 : List Cita) : Prop :=
  db.length ≤ db2.length ∧
  ∀ p ∈ List.zip db db2, p.1.estado = "cancelada" → p.2.estado = "cancelada"

/-- A fully populated creation request for slot (5, 10). -/
def reqA : CitaRequest :=
  { nombre := some "Ana"
    apellido := some "Diaz"
    email := some "a@x.co"
    telefono := some "123"
    fecha := some 5
    hora := some 10
    motivo := some "consulta"
    notas := none }

/-- A creation request for the same slot (5, 10) from a second client. -/
def reqB : CitaRequest :=
  { nombre := some "Bea"
    apellido := some "Ruiz"
    email := some "b@x.co"
    telefono := some "456"
    fecha := some 5
    hora := some 10
    motivo := some "terapia"
    notas := some "urgente" }

/-- A creation request that supplies name, email, phone, date and time but
omits `motivo` and `notas`. -/
def reqNoMotivo : CitaRequest :=
  { reqA with motivo := none }

/-- A concrete cancelled appointment occupying slot (5, 10). -/
def citaCancelada : Cita :=
  { id := 1
    nombre := "Ana"
    apellido := "Diaz"
    email := "a@x.co"
    telefono := "123"
    fecha := 5
    hora := 10
    motivo := "consulta"
    notas := none
    estado := "cancelada"
    fecha_actualizacion := 3 }

/-- The same appointment before cancellation. -/
def citaConfirmada : Cita :=
  { citaCancelada with estado := "confirmada" }

/-- An update body that writes `estado = 'confirmada'`. -/
def updConfirma : CitaUpdate :=
  { nombre := "Ana"
    apellido := "Diaz"
    email := "a@x.co"
    telefono := "123"
    fecha := 5
    hora := 10
    motivo := "consulta"
    notas := none
    estado := "confirmada" }

/-- An update body that writes `estado = 'cancelada'`. -/
def updCancela : CitaUpdate :=
  { updConfirma with estado := "cancelada" }

end Citas

namespace Gratuitas

/-- Possible outcomes of the outbound n8n webhook call. -/
inductive WebhookOutcome where
  | noUrl
  | netError (msg : String)
  | httpError (status : Nat)
  | delivered
  deriving DecidableEq, Repr

/-- `enviarWebhookN8n`: an unconfigured URL returns after logging; a fetch
rejection is caught and logged; a non-OK response status is logged; in
every case the function returns normally and never propagates an error to
its caller. -/
def enviarWebhookN8n : WebhookOutcome → Except String Unit
  | .noUrl => .ok ()
  | .netError _ => .ok ()
  | .httpError _ => .ok ()
  | .delivered => .ok ()

/-- A row of the `citas_gratuitas` table (simplified variant).  The table
schema file is not part of the source tree: the columns are those named by
the INSERT and the reminder-flag UPDATEs.  `fecha_actualizacion` is
Modelled from the spec: the unified data model declares an `updatedAt`
timestamp on every appointment record; no query of this variant writes
that column, so the handlers below never touch it.  `fecha_cita` is a
timestamp in milliseconds. -/
structure CitaG where
  id : Nat
  nombre : String
  email : String
  telefono : String
  fecha_cita : Int
  recordatorio_24h_enviado : Bool
  recordatorio_2h_enviado : Bool
  recordatorio_post_enviado : Bool
  fecha_actualizacion : Int
  deriving DecidableEq, Repr

/-- Body of a `POST /api/citas` request (simplified variant). -/
structure CitaGRequest where
  nombre : Option String
  email : Option String
  telefono : Option String
  tipoFecha : Option String
  deriving DecidableEq, Repr

/-- The `switch (tipoFecha)` of the simplified creation handler: the
offset added to `new Date()` in milliseconds; `none` for the default
branch (400). -/
def offsetMs : String → Option Int
  | "24h" => some 86400000
  | "2h" => some 7200000
  | "1h_pasado" => some (-3600000)
  | _ => none

/-- Outcome of `POST /api/citas` (simplified variant). -/
inductive CreateRespG where
  | badRequest
  | created (c : CitaG)
  | serverError
  deriving DecidableEq, Repr

/-- Handler of `POST /api/citas` (simplified variant): validate presence
of `nombre`, `email`, `telefono`, `tipoFecha`; compute `fecha_cita` from
the offset code relative to `now`; insert with all three reminder flags
false; then await the webhook, which never throws, and answer 201. -/
def createCitaG (db : List CitaG) (r : CitaGRequest) (newId : Nat)
    (now : Int) (w : WebhookOutcome) : CreateRespG × List CitaG :=
  if Citas.falsy r.nombre || Citas.falsy r.email || Citas.falsy r.telefono ||
      Citas.falsy r.tipoFecha then
    (.badRequest, db)
  else
    match offsetMs (r.tipoFecha.getD "") with
    | none => (.badRequest, db)
    | some off =>
        let c : CitaG :=
          { id := newId
            nombre := r.nombre.getD ""
            email := r.email.getD ""
            telefono := r.telefono.getD ""
            fecha_cita := now + off
            recordatorio_24h_enviado := false
            recordatorio_2h_enviado := false
            recordatorio_post_enviado := false
            fecha_actualizacion := now }
        match enviarWebhookN8n w with
        | .error _ => (.serverError, db ++ [c])
        | .ok _ => (.created c, db ++ [c])

/-- Outcome of `DELETE /api/citas/:id` (simplified variant). -/
inductive DeleteRespG where
  | notFound
  | deleted (c : CitaG)
  | serverError
  deriving DecidableEq, Repr

/-- Handler of `DELETE /api/citas/:id` (simplified variant, physical
delete): `DELETE FROM citas_gratuitas WHERE id = $1 RETURNING *`; 404
when no row matched; otherwise await the webhook (which never throws) and
answer 200 with the removed row. -/
def deleteCitaG (db : List CitaG) (i : Nat) (w : WebhookOutcome) :
    DeleteRespG × List CitaG :=
  match db.find? (fun c => c.id = i) with
  | none => (.notFound, db)
  | some c =>
      let db2 := db.filter (fun x => !(x.id = i : Bool))
      match enviarWebhookN8n w with
      | .error _ => (.serverError, db2)
      | .ok _ => (.deleted c, db2)

/-- Outcome of the reminder-flag PATCH endpoints. -/
inductive FlagResp where
  | badRequest
  | notFound
  | ok (c : CitaG)
  deriving DecidableEq, Repr

/-- The `SET recordatorio_<tipo>_enviado = true` clause of
`marcar-recordatorio`, applied to one row. -/
def setFlag (c : CitaG) (tipo : String) : CitaG :=
  match tipo with
  | "24h" => { c with recordatorio_24h_enviado := true }
  | "2h" => { c with recordatorio_2h_enviado := true }
  | "post" => { c with recordatorio_post_enviado := true }
  | _ => c

/-- Reading one reminder flag by its name. -/
def flagVal (c : CitaG) : String → Bool
  | "24h" => c.recordatorio_24h_enviado
  | "2h" => c.recordatorio_2h_enviado
  | "post" => c.recordatorio_post_enviado
  | _ => false

/-- Equality of two rows on every column except the three reminder
flags. -/
def sameExceptFlags (a b : CitaG) : Bool :=
  a.id = b.id && a.nombre = b.nombre && a.email = b.email &&
  a.telefono = b.telefono && a.fecha_cita = b.fecha_cita &&
  a.fecha_actualizacion = b.fecha_actualizacion

/-- Handler of `PATCH /api/citas/:id/marcar-recordatorio`: 400 unless the
body's `tipo` is one of `24h`, `2h`, `post`; 404 when the id matches no
row; otherwise set exactly the chosen flag column to true. -/
def marcarRecordatorio (db : List CitaG) (i : Nat) (tipo : Option String) :
    FlagResp × List CitaG :=
  match tipo with
  | none => (.badRequest, db)
  | some t =>
      if t = "24h" ∨ t = "2h" ∨ t = "post" then
        match db.find? (fun c => c.id = i) with
        | none => (.notFound, db)
        | some c =>
            (.ok (setFlag c t),
             db.map (fun x => if x.id = i then setFlag x t else x))
      else (.badRequest, db)

/-- The `SET` clause of the reset-flags endpoints, applied to one row:
all three reminder flags become false; nothing else is written. -/
def clearFlags (c : CitaG) : CitaG :=
  { c with
    recordatorio_24h_enviado := false
    recordatorio_2h_enviado := false
    recordatorio_post_enviado := false }

/-- Handler of `PATCH /api/citas/:id/reset-flags`: 404 when the id matches
no row; otherwise reset that row's three flags. -/
def resetFlagsCitaG (db : List CitaG) (i : Nat) : FlagResp × List CitaG :=
  match db.find? (fun c => c.id = i) with
  | none => (.notFound, db)
  | some c =>
      (.ok (clearFlags c),
       db.map (fun x => if x.id = i then clearFlags x else x))

/-- Handler of `PATCH /api/citas/reset-flags/all`:
`UPDATE citas_gratuitas SET ... = false RETURNING *` — rewrites every row
and returns the affected set (first component), alongside the new store
state (second component). -/
def resetAllFlagsCitaG (db : List CitaG) : List CitaG × List CitaG :=
  (db.map clearFlags, db.map clearFlags)

/-- A row with a mixed flag state. -/
def gUno : CitaG :=
  { id := 1
    nombre := "Ana"
    email := "a@x.co"
    telefono := "123"
    fecha_cita := 99
    recordatorio_24h_enviado := true
    recordatorio_2h_enviado := false
    recordatorio_post_enviado := false
    fecha_actualizacion := 50 }

/-- A valid simplified creation request with the long-lead offset code. -/
def reqG : CitaGRequest :=
  { nombre := some "Ana"
    email := some "a@x.co"
    telefono := some "123"
    tipoFecha := some "24h" }

end Gratuitas

namespace Citas

theorem zip_map_self {α : Type} (f : α → α) (l : List α) :
    List.zip l (l.map f) = l.map (fun x => (x, f x)) := by
  induction l with
  | nil => rfl
  | cons a l ih => simp [ih]

theorem zip_self_append {α : Type} (l t : List α) :
    List.zip l (l ++ t) = l.map (fun x => (x, x)) := by
  induction l with
  | nil => rfl
  | cons a l ih => simp [ih]

theorem preservesCancelled_map (db : List Cita) (f : Cita → Cita)
    (hf : ∀ x, x.estado = "cancelada" → (f x).estado = "cancelada") :
    preservesCancelled db (db.map f) := by
  refine ⟨by simp, ?_⟩
  intro p hp
  rw [zip_map_self] at hp
  simp only [List.mem_map] at hp
  obtain ⟨x, _, rfl⟩ := hp
  exact hf x

theorem preservesCancelled_append (db t : List Cita) :
    preservesCancelled db (db ++ t) := by
  refine ⟨by simp, ?_⟩
  intro p hp
  rw [zip_self_append] at hp
  simp only [List.mem_map] at hp
  obtain ⟨x, _, rfl⟩ := hp
  exact id

theorem preservesCancelled_refl (db : List Cita) :
    preservesCancelled db db := by
  simpa using preservesCancelled_append db []

/-- Claim C1: in the full variant, creation answers 409 exactly when some
non-cancelled row occupies the requested (date, time) slot, in which case
nothing is inserted; when every occupant of the slot is cancelled (in
particular after the first appointment is cancelled), creation succeeds
and appends a confirmed row at that slot. -/
theorem createCita_conflict_iff (db : List Cita) (r : CitaRequest)
    (newId now d t : Nat)
    (hv : missingRequired r = false)
    (hd : r.fecha = some d) (ht : r.hora = some t) :
    (((createCita db r newId now).1 = .conflict) ↔
      ∃ c ∈ db, c.fecha = d ∧ c.hora = t ∧ c.estado ≠ "cancelada") ∧
    ((∃ c ∈ db, c.fecha = d ∧ c.hora = t ∧ c.estado ≠ "cancelada") →
      (createCita db r newId now).2 = db) ∧
    ((∀ c ∈ db, c.fecha = d → c.hora = t → c.estado = "cancelada") →
      ∃ c, (createCita db r newId now).1 = .created c ∧
        (createCita db r newId now).2 = db ++ [c] ∧
        c.estado = "confirmada" ∧ c.fecha = d ∧ c.hora = t) := by
  have hconf : hasConflict db d t = true ↔
      ∃ c ∈ db, c.fecha = d ∧ c.hora = t ∧ c.estado ≠ "cancelada" := by
    simp [hasConflict, List.any_eq_true, and_assoc]
  refine ⟨?_, ?_, ?_⟩
  · rw [← hconf]
    by_cases h : hasConflict db d t <;>
      simp [createCita, hv, hd, ht, h]
  · rw [← hconf]
    intro h
    simp [createCita, hv, hd, ht, h]
  · intro hall
    have h : hasConflict db d t = false := by
      rw [Bool.eq_false_iff]
      intro hcontra
      obtain ⟨c, hc, h1, h2, h3⟩ := hconf.mp hcontra
      exact h3 (hall c hc h1 h2)
    refine ⟨{ id := newId
              nombre := r.nombre.getD ""
              apellido := r.apellido.getD ""
              email := r.email.getD ""
              telefono := r.telefono.getD ""
              fecha := d
              hora := t
              motivo := r.motivo.getD ""
              notas := if falsy r.notas then none else r.notas
              estado := "confirmada"
              fecha_actualizacion := now }, ?_, ?_, rfl, rfl, rfl⟩ <;>
      simp [createCita, hv, hd, ht, h]

/-- Witness for C1: with one confirmed appointment at slot (5, 10), a
second request for the same slot answers 409. -/
theorem createCita_conflict_iff_witness :
    missingRequired reqB = false ∧
    ((createCita [citaConfirmada] reqB 2 4).1 = .conflict ↔
      ∃ c ∈ [citaConfirmada], c.fecha = 5 ∧ c.hora = 10 ∧
        c.estado ≠ "cancelada") := by
  refine ⟨by decide, ?_⟩
  exact (createCita_conflict_iff [citaConfirmada] reqB 2 4 5 10
    (by decide) rfl rfl).1

/-- Claim C2 (code evaluated at the failing request): the route
`/api/citas/:id` is registered before `/api/citas/pendientes`, so Express
dispatches `GET /api/citas/pendientes` to the get-by-id handler with
`id = "pendientes"`; the pendientes handler is unreachable for every
path. -/
theorem pendientesRouteDead :
    firstMatch serverGetRoutes ["api", "citas", "pendientes"]
        = some "getCitaById" ∧
    ∀ path, firstMatch serverGetRoutes path ≠ some "getCitasPendientes" := by
  refine ⟨by decide, ?_⟩
  intro path h
  rcases path with _ | ⟨a, _ | ⟨b, _ | ⟨c, _ | ⟨d, rest⟩⟩⟩⟩
  · simp [firstMatch, serverGetRoutes, routeMatches, segMatches] at h
  · by_cases ha : "health" = a
    · subst ha
      simp [firstMatch, serverGetRoutes, routeMatches, segMatches] at h
    · simp [firstMatch, serverGetRoutes, routeMatches, segMatches, ha] at h
  · by_cases ha : "api" = a <;> by_cases hb : "citas" = b <;>
      simp [firstMatch, serverGetRoutes, routeMatches, segMatches, ha, hb] at h
  · by_cases ha : "api" = a <;> by_cases hb : "citas" = b <;>
      simp [firstMatch, serverGetRoutes, routeMatches, segMatches, ha, hb] at h
  · rcases rest with _ | ⟨e, rest2⟩
    · by_cases ha : "api" = a <;> by_cases hb : "citas" = b <;>
        by_cases hc : "fecha" = c <;>
        simp [firstMatch, serverGetRoutes, routeMatches, segMatches,
          ha, hb, hc] at h
    · simp [firstMatch, serverGetRoutes, routeMatches, segMatches] at h

/-- Counterexample to claim C3: a cancelled appointment is revived by
`PUT /api/citas/:id` carrying `estado = 'confirmada'` — the handler writes
the request's status into the row unconditionally. -/
theorem updateRevivesCancelled :
    citaCancelada.estado = "cancelada" ∧
    ((updateCita [citaCancelada] 1 updConfirma 7).2.map
      (fun c => c.estado)) = ["confirmada"] := by decide

/-- Claim C3 as amended: a cancelled row stays cancelled under the cancel
operation, under a full update whose body carries status `cancelada`, and
under creation; only a full update carrying a different status leaves the
cancelled state. -/
theorem cancelledTerminalAmended (db : List Cita) (i now newId nnow : Nat)
    (u : CitaUpdate) (r : CitaRequest) :
    preservesCancelled db (cancelCita db i now).2 ∧
    (u.estado = "cancelada" →
      preservesCancelled db (updateCita db i u now).2) ∧
    preservesCancelled db (createCita db r newId nnow).2 := by
  refine ⟨?_, ?_, ?_⟩
  · unfold cancelCita
    cases hf : db.find? (fun c => c.id = i) with
    | none => exact preservesCancelled_refl db
    | some c =>
        exact preservesCancelled_map db _ (fun x hx => by
          by_cases h : x.id = i <;> simp [h, applyCancel, hx])
  · intro hu
    unfold updateCita
    cases hf : db.find? (fun c => c.id = i) with
    | none => exact preservesCancelled_refl db
    | some c =>
        exact preservesCancelled_map db _ (fun x hx => by
          by_cases h : x.id = i <;> simp [h, applyUpdate, hu, hx])
  · unfold createCita
    by_cases h1 : missingRequired r
    · simpa [h1] using preservesCancelled_refl db
    · by_cases h2 : hasConflict db (r.fecha.getD 0) (r.hora.getD 0)
      · simpa [h1, h2] using preservesCancelled_refl db
      · simpa [h1, h2] using preservesCancelled_append db _

/-- Witness for the amended C3: a store holding one cancelled appointment
still holds it cancelled after an update whose body carries
`estado = 'cancelada'`. -/
theorem cancelledTerminalAmended_witness :
    updCancela.estado = "cancelada" ∧
    preservesCancelled [citaCancelada]
      (updateCita [citaCancelada] 1 updCancela 9).2 := by
  exact ⟨by decide,
    (cancelledTerminalAmended [citaCancelada] 1 9 2 9 updCancela reqA).2.1
      (by decide)⟩

/-- Counterexample to claim C7: a creation request carrying name, email,
phone, date and time but no `motivo` (reason) is rejected with 400 and
inserts nothing — the full variant's validation also requires `motivo`. -/
theorem createWithoutMotivoRejected :
    falsy reqNoMotivo.nombre = false ∧ falsy reqNoMotivo.apellido = false ∧
    falsy reqNoMotivo.email = false ∧ falsy reqNoMotivo.telefono = false ∧
    reqNoMotivo.fecha = some 5 ∧ reqNoMotivo.hora = some 10 ∧
    (createCita [] reqNoMotivo 1 0).1 = .badRequest ∧
    (createCita [] reqNoMotivo 1 0).2 = [] := by decide

/-- Claim C7 as amended: creation answers 400 exactly when one of the
seven fields `nombre`, `apellido`, `email`, `telefono`, `fecha`, `hora`,
`motivo` is absent (or an empty string); `notas` is the only optional
field. -/
theorem createValidationIff (db : List Cita) (r : CitaRequest)
    (newId now : Nat) :
    ((createCita db r newId now).1 = .badRequest) ↔
      (falsy r.nombre || falsy r.apellido || falsy r.email ||
       falsy r.telefono || r.fecha.isNone || r.hora.isNone ||
       falsy r.motivo) = true := by
  have hm : (falsy r.nombre || falsy r.apellido || falsy r.email ||
      falsy r.telefono || r.fecha.isNone || r.hora.isNone ||
      falsy r.motivo) = missingRequired r := rfl
  rw [hm]
  by_cases h : missingRequired r
  · simp [createCita, h]
  · simp only [Bool.not_eq_true] at h
    simp only [createCita, h, Bool.false_eq_true, if_false, h]
    by_cases h2 : hasConflict db (r.fecha.getD 0) (r.hora.getD 0) <;>
      simp [h2]

/-- Claim C10: the date listing applies no status filter — it returns
exactly the rows with the requested date (cancelled ones included),
ordered by time. -/
theorem getByDateSpec (db : List Cita) (f : Nat) :
    (getByDate db f).Perm (db.filter (fun c => c.fecha = f)) ∧
    List.Sorted horaLe (getByDate db f) ∧
    ∀ c, c ∈ getByDate db f ↔ c ∈ db ∧ c.fecha = f := by
  refine ⟨List.perm_insertionSort _ _, List.sorted_insertionSort _ _, ?_⟩
  intro c
  rw [getByDate, List.mem_insertionSort, List.mem_filter]
  simp

end Citas

namespace Gratuitas

/-- Claim C5: the bulk reset rewrites every row, reports exactly as many
rows as the store holds, and afterwards every row has all three reminder
flags false. -/
theorem resetAllFlagsSpec (db : List CitaG) :
    (resetAllFlagsCitaG db).1.length = db.length ∧
    ((resetAllFlagsCitaG db).2.all
      (fun c => !c.recordatorio_24h_enviado && !c.recordatorio_2h_enviado &&
        !c.recordatorio_post_enviado)) = true := by
  refine ⟨by simp [resetAllFlagsCitaG], ?_⟩
  simp [resetAllFlagsCitaG, List.all_eq_true, clearFlags]

/-- Claim C6: the response and resulting store of the creation and
deletion handlers do not depend on the webhook outcome — an unconfigured
URL, a network error and a non-OK HTTP status produce exactly the result
of a delivered webhook. -/
theorem webhookOutcomeIrrelevant (db : List CitaG) (r : CitaGRequest)
    (newId : Nat) (now : Int) (i : Nat) (w : WebhookOutcome) :
    createCitaG db r newId now w = createCitaG db r newId now .delivered ∧
    deleteCitaG db i w = deleteCitaG db i .delivered := by
  cases w <;> exact ⟨rfl, rfl⟩

/-- Claim C4: for an existing row and a recognized flag name, the
marcar-recordatorio handler answers with the row where exactly the chosen
reminder boolean is true, the other two reminder booleans keep their
values, and every non-flag column is unchanged. -/
theorem marcarRecordatorioFrame (db : List CitaG) (i : Nat) (t : String)
    (cRow : CitaG)
    (ht : t = "24h" ∨ t = "2h" ∨ t = "post")
    (hc : db.find? (fun x => x.id = i) = some cRow) :
    (marcarRecordatorio db i (some t)).1 = .ok (setFlag cRow t) ∧
    flagVal (setFlag cRow t) t = true ∧
    (∀ s, (s = "24h" ∨ s = "2h" ∨ s = "post") → s ≠ t →
      flagVal (setFlag cRow t) s = flagVal cRow s) ∧
    sameExceptFlags (setFlag cRow t) cRow = true := by
  have hmain : (marcarRecordatorio db i (some t)).1 = .ok (setFlag cRow t) := by
    simp only [marcarRecordatorio]
    rw [if_pos ht, hc]
  refine ⟨hmain, ?_, ?_, ?_⟩
  · rcases ht with h | h | h <;> subst h <;> rfl
  · intro s hs hne
    rcases ht with h | h | h <;> subst h <;>
      rcases hs with h2 | h2 | h2 <;> subst h2 <;>
        simp_all [flagVal, setFlag]
  · rcases ht with h | h | h <;> subst h <;>
      simp [setFlag, sameExceptFlags]

/-- Witness for C4: setting the short-lead flag on a stored row with a
mixed flag state answers with exactly that flag set and everything else
unchanged. -/
theorem marcarRecordatorioFrame_witness :
    (marcarRecordatorio [gUno] 1 (some "2h")).1 = .ok (setFlag gUno "2h") ∧
    flagVal (setFlag gUno "2h") "2h" = true ∧
    sameExceptFlags (setFlag gUno "2h") gUno = true := by
  have h := marcarRecordatorioFrame [gUno] 1 "2h" gUno
    (Or.inr (Or.inl rfl)) (by decide)
  exact ⟨h.1, h.2.1, h.2.2.2⟩

/-- Reads the scheduled timestamp out of a 201 response. -/
def createdFecha : CreateRespG → Option Int
  | .created c => some c.fecha_cita
  | _ => none

/-- `offsetMs` answers `none` on every unrecognized code. -/
theorem offsetMs_unrecognized (t : String)
    (h1 : t ≠ "24h") (h2 : t ≠ "2h") (h3 : t ≠ "1h_pasado") :
    offsetMs t = none := by
  unfold offsetMs
  split <;> simp_all

/-- Claim C8: the simplified creation computes the stored timestamp as
now+24h for code `24h`, now+2h for code `2h`, now-1h for code
`1h_pasado` (milliseconds), and answers 400 inserting nothing for every
other code. -/
theorem createCitaGOffsets (db : List CitaG) (r : CitaGRequest)
    (newId : Nat) (now : Int) (w : WebhookOutcome)
    (hn : Citas.falsy r.nombre = false) (he : Citas.falsy r.email = false)
    (hp : Citas.falsy r.telefono = false) :
    (r.tipoFecha = some "24h" →
      createdFecha (createCitaG db r newId now w).1 = some (now + 86400000) ∧
      (createCitaG db r newId now w).2.length = db.length + 1) ∧
    (r.tipoFecha = some "2h" →
      createdFecha (createCitaG db r newId now w).1 = some (now + 7200000) ∧
      (createCitaG db r newId now w).2.length = db.length + 1) ∧
    (r.tipoFecha = some "1h_pasado" →
      createdFecha (createCitaG db r newId now w).1 = some (now - 3600000) ∧
      (createCitaG db r newId now w).2.length = db.length + 1) ∧
    (∀ t, r.tipoFecha = some t → t ≠ "24h" → t ≠ "2h" → t ≠ "1h_pasado" →
      (createCitaG db r newId now w).1 = .badRequest ∧
      (createCitaG db r newId now w).2 = db) := by
  simp only [Citas.falsy] at hn he hp
  refine ⟨?_, ?_, ?_, ?_⟩
  · intro h
    cases hw : enviarWebhookN8n w with
    | error e => cases w <;> simp_all [enviarWebhookN8n]
    | ok u =>
        constructor <;>
          simp [createCitaG, hn, he, hp, h, Citas.falsy, offsetMs, hw,
            createdFecha]
  · intro h
    cases hw : enviarWebhookN8n w with
    | error e => cases w <;> simp_all [enviarWebhookN8n]
    | ok u =>
        constructor <;>
          simp [createCitaG, hn, he, hp, h, Citas.falsy, offsetMs, hw,
            createdFecha]
  · intro h
    cases hw : enviarWebhookN8n w with
    | error e => cases w <;> simp_all [enviarWebhookN8n]
    | ok u =>
        refine ⟨?_, ?_⟩ <;>
          simp [createCitaG, hn, he, hp, h, Citas.falsy, offsetMs, hw,
            createdFecha, Int.sub_eq_add_neg]
  · intro t h h1 h2 h3
    by_cases hemp : t = ""
    · subst hemp
      constructor <;> simp [createCitaG, hn, he, hp, h, Citas.falsy]
    · have hof : offsetMs t = none := offsetMs_unrecognized t h1 h2 h3
      constructor <;>
        simp [createCitaG, hn, he, hp, h, Citas.falsy, hemp, hof]

/-- Witness for C8: a valid request with code `24h` issued at time 1000
stores the timestamp 1000 + 86400000. -/
theorem createCitaGOffsets_witness :
    Citas.falsy reqG.nombre = false ∧
    createdFecha (createCitaG [] reqG 1 1000 .delivered).1
      = some (1000 + 86400000) := by
  refine ⟨by decide, ?_⟩
  exact ((createCitaGOffsets [] reqG 1 1000 .delivered
    (by decide) (by decide) (by decide)).1 rfl).1

/-- Counterexample to claim C9: the reminder-flag handlers write only the
three flag columns, so a row whose update timestamp is 50 keeps the
timestamp 50 after a single reset and after marking the post flag — the
handlers do not even receive a current time to refresh it with. -/
theorem flagOpsKeepTimestamp :
    gUno.fecha_actualizacion = 50 ∧
    ((resetFlagsCitaG [gUno] 1).2.map
      (fun c => c.fecha_actualizacion)) = [50] ∧
    ((marcarRecordatorio [gUno] 1 (some "post")).2.map
      (fun c => c.fecha_actualizacion)) = [50] := by decide

/-- Claim C9 as amended: in the full variant, the field update and the
cancellation refresh the row's `fecha_actualizacion` to the operation
time; the simplified variant's flag operations leave every row's update
timestamp exactly as it was. -/
theorem updatedAtAmended (db : List Citas.Cita) (i now : Nat)
    (u : Citas.CitaUpdate) (cRow : Citas.Cita) (gdb : List CitaG)
    (gi : Nat) (t : Option String) :
    ((Citas.updateCita db i u now).1 = .ok cRow →
      cRow.fecha_actualizacion = now) ∧
    ((Citas.cancelCita db i now).1 = .ok cRow →
      cRow.fecha_actualizacion = now) ∧
    ((resetFlagsCitaG gdb gi).2.map (fun x => x.fecha_actualizacion) =
      gdb.map (fun x => x.fecha_actualizacion)) ∧
    ((marcarRecordatorio gdb gi t).2.map (fun x => x.fecha_actualizacion) =
      gdb.map (fun x => x.fecha_actualizacion)) := by
  refine ⟨?_, ?_, ?_, ?_⟩
  · cases hf : db.find? (fun c => c.id = i) with
    | none => simp [Citas.updateCita, hf]
    | some x =>
        intro h
        simp only [Citas.updateCita, hf, Citas.RowResp.ok.injEq] at h
        rw [← h]
        rfl
  · cases hf : db.find? (fun c => c.id = i) with
    | none => simp [Citas.cancelCita, hf]
    | some x =>
        intro h
        simp only [Citas.cancelCita, hf, Citas.RowResp.ok.injEq] at h
        rw [← h]
        rfl
  · cases hf : gdb.find? (fun c => c.id = gi) with
    | none => simp [resetFlagsCitaG, hf]
    | some x =>
        simp only [resetFlagsCitaG, hf, List.map_map]
        apply List.map_congr_left
        intro a _
        by_cases h : a.id = gi <;> simp [h, clearFlags]
  · cases t with
    | none => simp [marcarRecordatorio]
    | some s =>
        by_cases hs : s = "24h" ∨ s = "2h" ∨ s = "post"
        · cases hf : gdb.find? (fun c => c.id = gi) with
          | none => simp [marcarRecordatorio, hs, hf]
          | some x =>
              simp only [marcarRecordatorio, hs, if_true, hf, List.map_map]
              apply List.map_congr_left
              intro a _
              by_cases h : a.id = gi
              · rcases hs with h2 | h2 | h2 <;> subst h2 <;>
                  simp [h, setFlag]
              · simp [h]
        · simp [marcarRecordatorio, hs]

/-- Witness for the amended C9: updating the one stored appointment at
time 7 answers with a row whose update timestamp is 7. -/
theorem updatedAtAmended_witness :
    (Citas.updateCita [Citas.citaConfirmada] 1 Citas.updConfirma 7).1 =
      .ok (Citas.applyUpdate Citas.citaConfirmada Citas.updConfirma 7) ∧
    (Citas.applyUpdate Citas.citaConfirmada Citas.updConfirma 7
      ).fecha_actualizacion = 7 := by
  refine ⟨by decide, ?_⟩
  exact (updatedAtAmended [Citas.citaConfirmada] 1 7 Citas.updConfirma
    (Citas.applyUpdate Citas.citaConfirmada Citas.updConfirma 7)
    [] 1 none).1 (by decide)

end Gratuitas
